import Mathlib

/-!
Shallow embedding of the homework-status polling bot (homework.py and
exceptions.py) and proofs about its validation, translation and
orchestration logic.

JSON-like Python values are modelled by `PyValue`; Python dicts are
association lists with string keys.  Python exceptions become the error
type `BotErr`; functions that raise become `Except BotErr` functions.
The orchestrator loop body (main, lines 164-186) becomes the state
transformer `runCycle` over `BotState`.
-/

/-- A Python value as it can appear in a decoded JSON payload. -/
inductive PyValue : Type where
  | str (s : String)
  | int (n : Int)
  | bool (b : Bool)
  | list (xs : List PyValue)
  | dict (xs : List (String × PyValue))
  | pyNone

/-- Python truthiness (`if not x`): empty string, zero, empty containers,
False and None are falsy. -/
def truthy : PyValue → Bool
  | .str s => s != ""
  | .int n => n != 0
  | .bool b => b
  | .list xs => !xs.isEmpty
  | .dict xs => !xs.isEmpty
  | .pyNone => false

mutual

/-- Python `repr` of a value (quotes strings, renders containers). -/
def pyRepr : PyValue → String
  | .str s => "\x27" ++ s ++ "\x27"
  | .int n => toString n
  | .bool b => if b then "True" else "False"
  | .list xs => "[" ++ pyReprList xs ++ "]"
  | .dict xs => "\x7b" ++ pyReprDict xs ++ "\x7d"
  | .pyNone => "None"

/-- Comma-separated `repr` of list elements. -/
def pyReprList : List PyValue → String
  | [] => ""
  | [x] => pyRepr x
  | x :: y :: xs => pyRepr x ++ ", " ++ pyReprList (y :: xs)

/-- Comma-separated `repr` of dict entries. -/
def pyReprDict : List (String × PyValue) → String
  | [] => ""
  | [(k, v)] => "\x27" ++ k ++ "\x27: " ++ pyRepr v
  | (k, v) :: e :: xs => "\x27" ++ k ++ "\x27: " ++ pyRepr v ++ ", " ++ pyReprDict (e :: xs)

end

/-- Python `str` of a value, as used by f-string interpolation:
identity on strings, `repr` otherwise. -/
def pyStr : PyValue → String
  | .str s => s
  | v => pyRepr v

/-- Key membership of a Python dict (`k in d`); false on non-dicts. -/
def hasKey (v : PyValue) (k : String) : Bool :=
  match v with
  | .dict xs => (xs.lookup k).isSome
  | _ => false

/-- Subscript `d[k]` on a dict.  Total model: returns `pyNone` when the
key is absent or the value is not a dict; every use below is guarded by
a presence check that mirrors the source. -/
def getKey (v : PyValue) (k : String) : PyValue :=
  match v with
  | .dict xs => (xs.lookup k).getD .pyNone
  | _ => .pyNone

/-- `isinstance(v, dict)`. -/
def isDict : PyValue → Bool
  | .dict _ => true
  | _ => false

/-- `isinstance(v, list)`. -/
def isList : PyValue → Bool
  | .list _ => true
  | _ => false

/-- The list elements of a value known to be a Python list. -/
def asList : PyValue → List PyValue
  | .list xs => xs
  | _ => []

/-- Python `repr` of the set of missing keys, as interpolated into the
`KeyError` message of parse_status (homework.py line 130).  CPython
iterates string sets in a hash-dependent order; the embedding fixes the
order in which the keys are listed but keeps the same elements. -/
def renderKeySet (keys : List String) : String :=
  "\x7b" ++ String.intercalate ", " (keys.map fun k => "\x27" ++ k ++ "\x27") ++ "\x7d"

/-- The exceptions the bot can raise (exceptions.py plus the built-in
Python exception classes used by homework.py).  `missingKeys` is the
`KeyError` of parse_status carrying the set of missing keys;
`jsonDecode` is the re-raised `JSONDecodeError` of get_api_answer —
the kind the spec calls `MalformedResponseError`. -/
inductive BotErr : Type where
  | typeError (msg : String)
  | keyError (msg : String)
  | missingKeys (keys : List String)
  | valueError (msg : String)
  | endpointUnavailable (msg : String)
  | jsonDecode (msg : String)
deriving DecidableEq

/-- Python `str(exception)` as used by f-string interpolation in the
orchestrator failure handler; `str` of a `KeyError` is the `repr` of its
argument, hence the added quotes. -/
def errStr : BotErr → String
  | .typeError m => m
  | .keyError m => "\x27" ++ m ++ "\x27"
  | .missingKeys ks => "\x27В homework отсутствуют ключи: " ++ renderKeySet ks ++ "\x27"
  | .valueError m => m
  | .endpointUnavailable m => m
  | .jsonDecode m => m

/-- homework.py line 24. -/
def ENDPOINT : String := "https://practicum.yandex.ru/api/user_api/homework_statuses/"

/-- homework.py lines 27-31. -/
def HOMEWORK_VERDICTS : List (String × String) :=
  [("approved", "Работа проверена: ревьюеру всё понравилось. Ура!"),
   ("reviewing", "Работа взята на проверку ревьюером."),
   ("rejected", "Работа проверена: у ревьюера есть замечания.")]

/-- `status in HOMEWORK_VERDICTS` followed by the lookup: a non-string
value is never a key of the table. -/
def verdictOf : PyValue → Option String
  | .str s => HOMEWORK_VERDICTS.lookup s
  | _ => none

/-- check_response (homework.py lines 96-115): TypeError when the
payload is not a dict, KeyError when `homeworks` or `current_date` is
absent, TypeError when `homeworks` is not a list; otherwise returns
without touching the payload. -/
def check_response (response : PyValue) : Except BotErr Unit :=
  match response with
  | .dict entries =>
    if (entries.lookup "homeworks").isNone then
      .error (.keyError "В ответе API отсутствует ключ \"homeworks\"")
    else if (entries.lookup "current_date").isNone then
      .error (.keyError "В ответе API отсутствует ключ \"current_date\"")
    else if !(isList (getKey (.dict entries) "homeworks")) then
      .error (.typeError "Значение по ключу \"homeworks\" не является списком")
    else
      .ok ()
  | _ => .error (.typeError "Ответ API не является словарем")

/-- homework.py lines 120-127. -/
def requiredKeys : List String :=
  ["id", "status", "homework_name", "reviewer_comment", "date_updated", "lesson_name"]

/-- parse_status (homework.py lines 118-148): KeyError listing the
missing required keys, ValueError on a falsy homework_name (naming the
id) and on a status outside the verdict table, otherwise the formatted
status-change message. -/
def parse_status (homework : PyValue) : Except BotErr String :=
  if !(requiredKeys.all fun k => hasKey homework k) then
    .error (.missingKeys (requiredKeys.filter fun k => !(hasKey homework k)))
  else
    let homework_name := getKey homework "homework_name"
    if !(truthy homework_name) then
      .error (.valueError
        ("Название домашней работы с id=" ++ pyStr (getKey homework "id") ++ " не указано"))
    else
      match verdictOf (getKey homework "status") with
      | none =>
        .error (.valueError
          ("Неожиданный статус домашней работы \"" ++ pyStr (getKey homework "status") ++ "\""))
      | some verdict =>
        .ok ("Изменился статус проверки работы \"" ++ pyStr homework_name ++ "\". " ++ verdict)

/-- The outcome of one HTTP round trip as seen by get_api_answer: either
`requests.get` raises a RequestException (carrying its rendered text), or
a response arrives with a status code and a body that either decodes as
JSON or does not (`Except.error` carries the decode-error text). -/
inductive HttpResult : Type where
  | failure (err : String)
  | response (status_code : Nat) (body : Except String PyValue)

/-- The request constructed by get_api_answer (homework.py lines 69-74):
fixed endpoint URL, the time cursor as the `from_date` query parameter,
a 30 second timeout. -/
structure ApiRequest : Type where
  url : String
  from_date : PyValue
  timeoutSecs : Nat

/-- homework.py lines 69-74. -/
def buildRequest (timestamp : PyValue) : ApiRequest :=
  { url := ENDPOINT, from_date := timestamp, timeoutSecs := 30 }

/-- get_api_answer (homework.py lines 62-93): EndpointUnavailableError
on a transport failure or a non-OK status code, the re-raised
JSONDecodeError on an undecodable body, the decoded payload otherwise. -/
def get_api_answer (r : HttpResult) : Except BotErr PyValue :=
  match r with
  | .failure err =>
    .error (.endpointUnavailable ("Сбой при запросе к эндпоинту: " ++ err))
  | .response status_code body =>
    if status_code != 200 then
      .error (.endpointUnavailable
        ("Эндпоинт " ++ ENDPOINT ++ " недоступен. Код ответа API: " ++ toString status_code))
    else
      match body with
      | .error err => .error (.jsonDecode err)
      | .ok payload => .ok payload

/-- The per-item loop of main (homework.py lines 175-177): translate and
send each homework in order; a translation failure stops the loop, the
messages already sent stay sent. -/
def sendAll : List PyValue → List String × Option BotErr
  | [] => ([], Option.none)
  | hw :: rest =>
    match parse_status hw with
    | .error e => ([], Option.some e)
    | .ok m => (m :: (sendAll rest).1, (sendAll rest).2)

/-- The state owned by main: the time cursor, the last notified failure
message, and the trace of messages handed to send_message.  Delivery
failures are swallowed inside send_message, so notifying always appends
to the trace. -/
structure BotState : Type where
  timestamp : PyValue
  last_error : String
  sent : List String

/-- The try-block of one loop iteration (homework.py lines 166-177),
independent of the loop state: the new time cursor when fetch and
validation succeed, the status messages sent before any failure, and
the exception reaching the handler, if any. -/
def attempt (r : HttpResult) : Option PyValue × List String × Option BotErr :=
  match get_api_answer r with
  | .error e => (Option.none, [], Option.some e)
  | .ok response =>
    match check_response response with
    | .error e => (Option.none, [], Option.some e)
    | .ok _ =>
      (Option.some (getKey response "current_date"),
       (sendAll (asList (getKey response "homeworks"))).1,
       (sendAll (asList (getKey response "homeworks"))).2)

/-- The failure message formatted by the handler (homework.py line 180). -/
def failFmt (e : BotErr) : String := "Сбой в работе программы: " ++ errStr e

/-- The failure message of a cycle, when the cycle fails. -/
def cycleFailMsg (r : HttpResult) : Option String := ((attempt r).2.2).map failFmt

/-- One iteration of the while-loop of main (homework.py lines 164-186):
run the try-block, then on failure format the message and notify only
when it differs from last_error, updating last_error when notifying. -/
def runCycle (st : BotState) (r : HttpResult) : BotState :=
  match attempt r with
  | (ts?, msgs, err?) =>
    let st1 : BotState :=
      { timestamp := ts?.getD st.timestamp, last_error := st.last_error, sent := st.sent ++ msgs }
    match err? with
    | Option.none => st1
    | Option.some e =>
      let message := failFmt e
      if st1.last_error = message then st1
      else { timestamp := st1.timestamp, last_error := message, sent := st1.sent ++ [message] }

/-- The fetch main performs at the top of a cycle (homework.py line 166
into lines 69-74): the current time cursor becomes `from_date`. -/
def nextRequest (st : BotState) : ApiRequest := buildRequest st.timestamp

/-- Does `hay` start with `needle`, character-wise. -/
def startsWithChars : List Char → List Char → Bool
  | _, [] => true
  | [], _ :: _ => false
  | c :: cs, d :: ds => c == d && startsWithChars cs ds

/-- Does `needle` occur contiguously inside `hay`. -/
def containsChars : List Char → List Char → Bool
  | [], needle => needle.isEmpty
  | c :: t, needle => startsWithChars (c :: t) needle || containsChars t needle

/-- Substring occurrence on strings, used to state what an error message
does or does not include. -/
def strContainsSub (s sub : String) : Bool := containsChars s.data sub.data

lemma runCycle_timestamp (st : BotState) (r : HttpResult) :
    (runCycle st r).timestamp = ((attempt r).1).getD st.timestamp := by
  rcases hA : attempt r with ⟨ts?, msgs, err?⟩
  cases err? with
  | none => simp [runCycle, hA]
  | some e =>
    simp only [runCycle, hA]
    split <;> rfl

lemma runCycle_ok_parts (st : BotState) (r : HttpResult)
    (h : (attempt r).2.2 = Option.none) :
    (runCycle st r).last_error = st.last_error ∧
    (runCycle st r).sent = st.sent ++ (attempt r).2.1 := by
  rcases hA : attempt r with ⟨ts?, msgs, err?⟩
  rw [hA] at h
  simp only at h
  subst h
  simp [runCycle, hA]

lemma runCycle_fail_parts (st : BotState) (r : HttpResult) (e : BotErr)
    (h : (attempt r).2.2 = Option.some e) :
    (runCycle st r).last_error = failFmt e ∧
    (st.last_error ≠ failFmt e →
      (runCycle st r).sent = (st.sent ++ (attempt r).2.1) ++ [failFmt e]) ∧
    (st.last_error = failFmt e →
      (runCycle st r).sent = st.sent ++ (attempt r).2.1) := by
  rcases hA : attempt r with ⟨ts?, msgs, err?⟩
  rw [hA] at h
  simp only at h
  subst h
  by_cases hc : st.last_error = failFmt e
  · simp [runCycle, hA, hc]
  · simp [runCycle, hA, hc]

lemma attempt_valid (payload : PyValue) (h : check_response payload = .ok ()) :
    attempt (.response 200 (.ok payload)) =
      (Option.some (getKey payload "current_date"),
       (sendAll (asList (getKey payload "homeworks"))).1,
       (sendAll (asList (getKey payload "homeworks"))).2) := by
  simp [attempt, get_api_answer, h]

lemma sendAll_append (pre : List PyValue) (ms : List String)
    (h : List.Forall₂ (fun hw m => parse_status hw = Except.ok m) pre ms)
    (rest : List PyValue) :
    sendAll (pre ++ rest) = (ms ++ (sendAll rest).1, (sendAll rest).2) := by
  induction h with
  | nil => simp [sendAll]
  | cons hr _ht ih => simp [sendAll, hr, ih]

/-- C1: for every tracked-item mapping containing all six required keys,
with a non-empty homework_name and a status in the verdict table,
parse_status returns exactly the template message interpolating the
homework name and the verdict phrase of that status. -/
theorem parse_status_success (entries : List (String × PyValue)) (name s verdict : String)
    (hkeys : ∀ k ∈ requiredKeys, hasKey (.dict entries) k = true)
    (hname : entries.lookup "homework_name" = Option.some (.str name))
    (hne : name ≠ "")
    (hstatus : entries.lookup "status" = Option.some (.str s))
    (hv : HOMEWORK_VERDICTS.lookup s = Option.some verdict) :
    parse_status (.dict entries) =
      .ok ("Изменился статус проверки работы \"" ++ name ++ "\". " ++ verdict) := by
  have hall : (requiredKeys.all fun k => hasKey (.dict entries) k) = true := by
    rw [List.all_eq_true]; exact hkeys
  simp [parse_status, hall, getKey, hname, hstatus, truthy, hne, verdictOf, hv, pyStr]

/-- C1 witness: the Sprint 4 scenario item produces exactly the message
the claim states. -/
theorem parse_status_success_witness :
    parse_status (.dict
      [("id", .int 1), ("status", .str "approved"), ("homework_name", .str "Sprint 4"),
       ("reviewer_comment", .str ""), ("date_updated", .str ""), ("lesson_name", .str "")]) =
      .ok ("Изменился статус проверки работы \"" ++ "Sprint 4" ++ "\". " ++
        "Работа проверена: ревьюеру всё понравилось. Ура!") :=
  parse_status_success _ "Sprint 4" "approved" "Работа проверена: ревьюеру всё понравилось. Ура!"
    (by decide) rfl (by decide) rfl rfl

/-- C5: for every tracked-item mapping missing at least one required
key, parse_status fails with the KeyError carrying exactly the set of
missing keys: a key is listed iff it is required and absent. -/
theorem parse_status_missing_keys (entries : List (String × PyValue))
    (hmiss : ∃ k ∈ requiredKeys, hasKey (.dict entries) k = false) :
    parse_status (.dict entries) =
      .error (.missingKeys (requiredKeys.filter fun k => !(hasKey (.dict entries) k))) ∧
    ∀ k, k ∈ (requiredKeys.filter fun k => !(hasKey (.dict entries) k)) ↔
      (k ∈ requiredKeys ∧ entries.lookup k = Option.none) := by
  constructor
  · have hall : (requiredKeys.all fun k => hasKey (.dict entries) k) = false := by
      obtain ⟨k, hk, hfalse⟩ := hmiss
      rw [List.all_eq_false]
      exact ⟨k, hk, by simp [hfalse]⟩
    simp [parse_status, hall]
  · intro k
    simp [List.mem_filter, hasKey, Option.isNone_iff_eq_none]

/-- C5 witness: an item having only the key `id` fails with exactly the
five other required keys reported missing. -/
theorem parse_status_missing_keys_witness :
    parse_status (.dict [("id", .int 1)]) =
      .error (.missingKeys
        ["status", "homework_name", "reviewer_comment", "date_updated", "lesson_name"]) :=
  (parse_status_missing_keys [("id", .int 1)] (by decide)).1

/-- C4: check_response raises the not-a-mapping TypeError on every
non-dict payload, the missing-key KeyError when `homeworks` or (with
`homeworks` present) `current_date` is absent, the wrong-type TypeError
when both keys are present but `homeworks` is not a list, and returns
`()` (a pure check, no mutation) on every remaining payload. -/
theorem check_response_spec :
    (∀ v : PyValue, isDict v = false →
      check_response v = .error (.typeError "Ответ API не является словарем")) ∧
    (∀ entries : List (String × PyValue), entries.lookup "homeworks" = Option.none →
      check_response (.dict entries) =
        .error (.keyError "В ответе API отсутствует ключ \"homeworks\"")) ∧
    (∀ entries : List (String × PyValue), (entries.lookup "homeworks").isSome = true →
      entries.lookup "current_date" = Option.none →
      check_response (.dict entries) =
        .error (.keyError "В ответе API отсутствует ключ \"current_date\"")) ∧
    (∀ (entries : List (String × PyValue)) (v : PyValue),
      entries.lookup "homeworks" = Option.some v → isList v = false →
      (entries.lookup "current_date").isSome = true →
      check_response (.dict entries) =
        .error (.typeError "Значение по ключу \"homeworks\" не является списком")) ∧
    (∀ (entries : List (String × PyValue)) (hws : List PyValue),
      entries.lookup "homeworks" = Option.some (.list hws) →
      (entries.lookup "current_date").isSome = true →
      check_response (.dict entries) = .ok ()) := by
  refine ⟨?_, ?_, ?_, ?_, ?_⟩
  · intro v hv
    cases v <;> simp_all [check_response, isDict]
  · intro entries h
    simp [check_response, h]
  · intro entries h1 h2
    obtain ⟨v, hv⟩ := Option.isSome_iff_exists.mp h1
    simp [check_response, hv, h2]
  · intro entries v h1 h2 h3
    obtain ⟨w, hw⟩ := Option.isSome_iff_exists.mp h3
    simp [check_response, h1, hw, h2, getKey]
  · intro entries hws h1 h2
    obtain ⟨w, hw⟩ := Option.isSome_iff_exists.mp h2
    simp [check_response, h1, hw, getKey, isList]

/-- C4 witness: one concrete payload per branch of check_response. -/
theorem check_response_spec_witness :
    check_response (.int 0) = .error (.typeError "Ответ API не является словарем") ∧
    check_response (.dict []) =
      .error (.keyError "В ответе API отсутствует ключ \"homeworks\"") ∧
    check_response (.dict [("homeworks", .list [])]) =
      .error (.keyError "В ответе API отсутствует ключ \"current_date\"") ∧
    check_response (.dict [("homeworks", .int 5), ("current_date", .int 0)]) =
      .error (.typeError "Значение по ключу \"homeworks\" не является списком") ∧
    check_response (.dict [("homeworks", .list []), ("current_date", .int 0)]) = .ok () :=
  ⟨check_response_spec.1 (.int 0) rfl,
   check_response_spec.2.1 [] rfl,
   check_response_spec.2.2.1 [("homeworks", .list [])] rfl rfl,
   check_response_spec.2.2.2.1 [("homeworks", .int 5), ("current_date", .int 0)] (.int 5)
     rfl rfl rfl,
   check_response_spec.2.2.2.2 [("homeworks", .list []), ("current_date", .int 0)] [] rfl rfl⟩

/-- C7: on a success-status response whose body does not decode,
get_api_answer fails with the undecodable-payload error kind (the
re-raised decode error, the spec calls it MalformedResponseError); on a
decodable body it returns the decoded payload unchanged. -/
theorem get_api_answer_decode :
    (∀ err : String,
      get_api_answer (.response 200 (.error err)) = .error (.jsonDecode err)) ∧
    (∀ payload : PyValue,
      get_api_answer (.response 200 (.ok payload)) = .ok payload) :=
  ⟨fun _ => rfl, fun _ => rfl⟩

/-- C6 counterexample: when the transport itself fails, the message of
the resulting EndpointUnavailableError is the formatted transport error
and does not contain the endpoint URL. -/
theorem get_api_answer_transport_lacks_url :
    get_api_answer (.failure "timeout") =
      .error (.endpointUnavailable "Сбой при запросе к эндпоинту: timeout") ∧
    strContainsSub "Сбой при запросе к эндпоинту: timeout" ENDPOINT = false :=
  ⟨rfl, by decide⟩

/-- C6 amended: both failure modes raise EndpointUnavailableError; the
non-success-status message is exactly the endpoint URL plus the status
code, while the transport-failure message carries only the transport
error text and need not mention the URL. -/
theorem get_api_answer_unavailable (err : String) (code : Nat)
    (body : Except String PyValue) (h : code ≠ 200) :
    get_api_answer (.failure err) =
      .error (.endpointUnavailable ("Сбой при запросе к эндпоинту: " ++ err)) ∧
    get_api_answer (.response code body) =
      .error (.endpointUnavailable
        ("Эндпоинт " ++ ENDPOINT ++ " недоступен. Код ответа API: " ++ toString code)) := by
  constructor
  · rfl
  · have hb : (code != 200) = true := by simpa using h
    simp [get_api_answer, hb]

/-- C6 amended witness: the HTTP 503 case, whose message contains both
the endpoint URL and the status code. -/
theorem get_api_answer_unavailable_witness :
    (503 ≠ 200) ∧
    (get_api_answer (.failure "timeout") =
      .error (.endpointUnavailable ("Сбой при запросе к эндпоинту: " ++ "timeout")) ∧
    get_api_answer (.response 503 (.ok .pyNone)) =
      .error (.endpointUnavailable
        ("Эндпоинт " ++ ENDPOINT ++ " недоступен. Код ответа API: " ++ toString 503))) ∧
    strContainsSub ("Эндпоинт " ++ ENDPOINT ++ " недоступен. Код ответа API: " ++ toString 503)
      ENDPOINT = true ∧
    strContainsSub ("Эндпоинт " ++ ENDPOINT ++ " недоступен. Код ответа API: " ++ toString 503)
      (toString 503) = true :=
  ⟨by decide, get_api_answer_unavailable "timeout" 503 (.ok .pyNone) (by decide),
   by decide, by decide⟩

/-- C2: after every failing cycle last_error equals that cycle's
formatted failure message whether or not it was notified; starting from
a state whose last_error differs from the message, two consecutive
failing cycles with the identical message notify the failure exactly
once (in the first cycle), and a third failing cycle with a different
message notifies again. -/
theorem failure_dedup :
    (∀ (st : BotState) (r : HttpResult) (m : String), cycleFailMsg r = Option.some m →
      (runCycle st r).last_error = m) ∧
    (∀ (st : BotState) (r₁ r₂ r₃ : HttpResult) (m m3 : String),
      cycleFailMsg r₁ = Option.some m → cycleFailMsg r₂ = Option.some m →
      cycleFailMsg r₃ = Option.some m3 → m3 ≠ m → st.last_error ≠ m →
      (runCycle st r₁).sent = (st.sent ++ (attempt r₁).2.1) ++ [m] ∧
      (runCycle (runCycle st r₁) r₂).sent = (runCycle st r₁).sent ++ (attempt r₂).2.1 ∧
      (runCycle (runCycle (runCycle st r₁) r₂) r₃).sent =
        ((runCycle (runCycle st r₁) r₂).sent ++ (attempt r₃).2.1) ++ [m3]) := by
  have unpack : ∀ (r : HttpResult) (m : String), cycleFailMsg r = Option.some m →
      ∃ e, (attempt r).2.2 = Option.some e ∧ failFmt e = m := by
    intro r m h
    unfold cycleFailMsg at h
    exact Option.map_eq_some'.mp h
  have lastE : ∀ (st : BotState) (r : HttpResult) (m : String),
      cycleFailMsg r = Option.some m → (runCycle st r).last_error = m := by
    intro st r m h
    obtain ⟨e, he, hm⟩ := unpack r m h
    rw [(runCycle_fail_parts st r e he).1, hm]
  refine ⟨lastE, ?_⟩
  intro st r₁ r₂ r₃ m m3 h1 h2 h3 hne hfresh
  obtain ⟨e₁, he₁, hm₁⟩ := unpack r₁ m h1
  obtain ⟨e₂, he₂, hm₂⟩ := unpack r₂ m h2
  obtain ⟨e₃, he₃, hm₃⟩ := unpack r₃ m3 h3
  have l1 : (runCycle st r₁).last_error = m := lastE st r₁ m h1
  have l2 : (runCycle (runCycle st r₁) r₂).last_error = m := lastE _ r₂ m h2
  refine ⟨?_, ?_, ?_⟩
  · rw [← hm₁]
    exact (runCycle_fail_parts st r₁ e₁ he₁).2.1 (by rw [hm₁]; exact hfresh)
  · exact (runCycle_fail_parts _ r₂ e₂ he₂).2.2 (by rw [l1, hm₂])
  · rw [← hm₃]
    exact (runCycle_fail_parts _ r₃ e₃ he₃).2.1 (by rw [l2, hm₃]; exact Ne.symm hne)

/-- C2 witness: two transport failures A then a transport failure B,
from the initial state: A is notified once, B is notified after. -/
theorem failure_dedup_witness :
    (runCycle ⟨.int 0, "", []⟩ (.failure "A")).last_error =
      "Сбой в работе программы: Сбой при запросе к эндпоинту: A" ∧
    ((runCycle ⟨.int 0, "", []⟩ (.failure "A")).sent =
      (([] : List String) ++ (attempt (.failure "A")).2.1) ++
        ["Сбой в работе программы: Сбой при запросе к эндпоинту: A"] ∧
    (runCycle (runCycle ⟨.int 0, "", []⟩ (.failure "A")) (.failure "A")).sent =
      (runCycle ⟨.int 0, "", []⟩ (.failure "A")).sent ++ (attempt (.failure "A")).2.1 ∧
    (runCycle (runCycle (runCycle ⟨.int 0, "", []⟩ (.failure "A")) (.failure "A"))
        (.failure "B")).sent =
      ((runCycle (runCycle ⟨.int 0, "", []⟩ (.failure "A")) (.failure "A")).sent ++
        (attempt (.failure "B")).2.1) ++
        ["Сбой в работе программы: Сбой при запросе к эндпоинту: B"]) :=
  ⟨failure_dedup.1 ⟨.int 0, "", []⟩ (.failure "A")
      "Сбой в работе программы: Сбой при запросе к эндпоинту: A" rfl,
   failure_dedup.2 ⟨.int 0, "", []⟩ (.failure "A") (.failure "A") (.failure "B")
      "Сбой в работе программы: Сбой при запросе к эндпоинту: A"
      "Сбой в работе программы: Сбой при запросе к эндпоинту: B"
      rfl rfl rfl (by decide) (by decide)⟩

/-- C3: whenever the fetch succeeds and the payload passes validation,
the cycle sets the time cursor to the payload's current_date; on the
empty-homeworks scenario payload nothing is notified and the cursor
becomes 1700000000. -/
theorem cursor_advances :
    (∀ (st : BotState) (payload : PyValue), check_response payload = .ok () →
      (runCycle st (.response 200 (.ok payload))).timestamp =
        getKey payload "current_date") ∧
    (∀ st : BotState,
      runCycle st (.response 200 (.ok (.dict
        [("homeworks", .list []), ("current_date", .int 1700000000)]))) =
        { timestamp := .int 1700000000, last_error := st.last_error, sent := st.sent }) := by
  constructor
  · intro st payload h
    rw [runCycle_timestamp, attempt_valid payload h]
    rfl
  · intro st
    have hA : attempt (.response 200 (.ok (.dict
        [("homeworks", .list []), ("current_date", .int 1700000000)]))) =
        (Option.some (.int 1700000000), [], Option.none) := rfl
    simp [runCycle, hA]

/-- C3 witness: the scenario payload from the initial state. -/
theorem cursor_advances_witness :
    (runCycle ⟨.int 0, "", []⟩ (.response 200 (.ok (.dict
      [("homeworks", .list []), ("current_date", .int 1700000000)])))).timestamp =
      getKey (.dict [("homeworks", .list []), ("current_date", .int 1700000000)])
        "current_date" ∧
    runCycle ⟨.int 0, "", []⟩ (.response 200 (.ok (.dict
      [("homeworks", .list []), ("current_date", .int 1700000000)]))) =
      { timestamp := .int 1700000000, last_error := "", sent := [] } :=
  ⟨cursor_advances.1 ⟨.int 0, "", []⟩ _ rfl, cursor_advances.2 ⟨.int 0, "", []⟩⟩

/-- C8: items are translated and notified in list order; when the item
at position k fails to translate, exactly the messages of the items
before k are sent, the later items are not processed, and the failure
reaches the cycle's failure handler (which notifies it when new). -/
theorem items_processed_in_order (pre : List PyValue) (hw : PyValue) (post : List PyValue)
    (ms : List String) (e : BotErr)
    (hpre : List.Forall₂ (fun h m => parse_status h = Except.ok m) pre ms)
    (hfail : parse_status hw = Except.error e) :
    sendAll (pre ++ hw :: post) = (ms, Option.some e) ∧
    ∀ (st : BotState) (entries : List (String × PyValue)) (v : PyValue),
      entries.lookup "homeworks" = Option.some (.list (pre ++ hw :: post)) →
      entries.lookup "current_date" = Option.some v →
      st.last_error ≠ failFmt e →
      runCycle st (.response 200 (.ok (.dict entries))) =
        { timestamp := v, last_error := failFmt e,
          sent := (st.sent ++ ms) ++ [failFmt e] } := by
  have hsend : sendAll (pre ++ hw :: post) = (ms, Option.some e) := by
    rw [sendAll_append pre ms hpre (hw :: post)]
    simp [sendAll, hfail]
  refine ⟨hsend, ?_⟩
  intro st entries v hhw hcd hfresh
  have hcheck : check_response (.dict entries) = .ok () := by
    simp [check_response, hhw, hcd, getKey, isList]
  have hA : attempt (.response 200 (.ok (.dict entries))) =
      (Option.some v, ms, Option.some e) := by
    rw [attempt_valid _ hcheck]
    simp [getKey, hhw, hcd, asList, hsend]
  simp [runCycle, hA, hfresh]

/-- C8 witness: a valid item, then an item missing every key, then a
further item: only the first message is sent, the failure is notified. -/
theorem items_processed_in_order_witness :
    sendAll
      [.dict [("id", .int 1), ("status", .str "approved"),
              ("homework_name", .str "Sprint 4"), ("reviewer_comment", .str ""),
              ("date_updated", .str ""), ("lesson_name", .str "")],
       .dict [], .pyNone] =
      (["Изменился статус проверки работы \"Sprint 4\". Работа проверена: ревьюеру всё понравилось. Ура!"],
       Option.some (.missingKeys
         ["id", "status", "homework_name", "reviewer_comment", "date_updated", "lesson_name"])) ∧
    runCycle ⟨.int 0, "", []⟩ (.response 200 (.ok (.dict
      [("homeworks", .list
        [.dict [("id", .int 1), ("status", .str "approved"),
                ("homework_name", .str "Sprint 4"), ("reviewer_comment", .str ""),
                ("date_updated", .str ""), ("lesson_name", .str "")],
         .dict [], .pyNone]),
       ("current_date", .int 5)]))) =
      { timestamp := .int 5,
        last_error := failFmt (.missingKeys
          ["id", "status", "homework_name", "reviewer_comment", "date_updated", "lesson_name"]),
        sent := (([] : List String) ++
          ["Изменился статус проверки работы \"Sprint 4\". Работа проверена: ревьюеру всё понравилось. Ура!"]) ++
          [failFmt (.missingKeys
            ["id", "status", "homework_name", "reviewer_comment", "date_updated", "lesson_name"])] } := by
  have thm := items_processed_in_order
    [.dict [("id", .int 1), ("status", .str "approved"),
            ("homework_name", .str "Sprint 4"), ("reviewer_comment", .str ""),
            ("date_updated", .str ""), ("lesson_name", .str "")]]
    (.dict []) [.pyNone]
    ["Изменился статус проверки работы \"Sprint 4\". Работа проверена: ревьюеру всё понравилось. Ура!"]
    (.missingKeys
      ["id", "status", "homework_name", "reviewer_comment", "date_updated", "lesson_name"])
    (List.Forall₂.cons rfl List.Forall₂.nil) rfl
  exact ⟨thm.1, thm.2 ⟨.int 0, "", []⟩ _ (.int 5) rfl rfl (by decide)⟩

/-- C9: a successful cycle leaves last_error unchanged; after a failure
with message m, any run of successful cycles, then a failure with the
same message m, the second m is still deduplicated (no failure
notification) and last_error still holds m; last_error changes only
when a failing cycle produces a message different from its value. -/
theorem last_error_persistence :
    (∀ (st : BotState) (r : HttpResult), (attempt r).2.2 = Option.none →
      (runCycle st r).last_error = st.last_error) ∧
    (∀ (st : BotState) (r₁ : HttpResult) (rs : List HttpResult) (r₂ : HttpResult)
       (e₁ e₂ : BotErr),
      (attempt r₁).2.2 = Option.some e₁ →
      (∀ r ∈ rs, (attempt r).2.2 = Option.none) →
      (attempt r₂).2.2 = Option.some e₂ → failFmt e₂ = failFmt e₁ →
      (runCycle (List.foldl runCycle (runCycle st r₁) rs) r₂).sent =
        (List.foldl runCycle (runCycle st r₁) rs).sent ++ (attempt r₂).2.1 ∧
      (runCycle (List.foldl runCycle (runCycle st r₁) rs) r₂).last_error = failFmt e₁) ∧
    (∀ (st : BotState) (r : HttpResult), (runCycle st r).last_error ≠ st.last_error →
      ∃ e, (attempt r).2.2 = Option.some e ∧ failFmt e ≠ st.last_error) := by
  have hpres : ∀ (rs : List HttpResult), (∀ r ∈ rs, (attempt r).2.2 = Option.none) →
      ∀ st' : BotState, (List.foldl runCycle st' rs).last_error = st'.last_error := by
    intro rs
    induction rs with
    | nil => intro _ st'; rfl
    | cons r t ih =>
      intro hall st'
      rw [List.foldl_cons,
        ih (fun x hx => hall x (List.mem_cons_of_mem r hx)) (runCycle st' r)]
      exact (runCycle_ok_parts st' r (hall r (List.mem_cons_self r t))).1
  refine ⟨fun st r h => (runCycle_ok_parts st r h).1, ?_, ?_⟩
  · intro st r₁ rs r₂ e₁ e₂ h1 hall h2 heq
    have l1 : (runCycle st r₁).last_error = failFmt e₁ := (runCycle_fail_parts st r₁ e₁ h1).1
    have lA : (List.foldl runCycle (runCycle st r₁) rs).last_error = failFmt e₁ := by
      rw [hpres rs hall, l1]
    have parts := runCycle_fail_parts (List.foldl runCycle (runCycle st r₁) rs) r₂ e₂ h2
    exact ⟨parts.2.2 (by rw [lA, heq]), by rw [parts.1, heq]⟩
  · intro st r hne
    rcases hE : (attempt r).2.2 with _ | e
    · exact absurd ((runCycle_ok_parts st r hE).1) hne
    · refine ⟨e, rfl, fun hcontra => ?_⟩
      exact hne (by rw [(runCycle_fail_parts st r e hE).1, hcontra])

/-- C9 witness: failure A, a successful empty cycle, then failure A
again: the second A sends nothing and last_error still holds A. -/
theorem last_error_persistence_witness :
    (runCycle ⟨.int 0, "", []⟩
        (.response 200 (.ok (.dict [("homeworks", .list []), ("current_date", .int 7)])))
      ).last_error = "" ∧
    ((runCycle (List.foldl runCycle (runCycle ⟨.int 0, "", []⟩ (.failure "A"))
        [.response 200 (.ok (.dict [("homeworks", .list []), ("current_date", .int 7)]))])
        (.failure "A")).sent =
      (List.foldl runCycle (runCycle ⟨.int 0, "", []⟩ (.failure "A"))
        [.response 200 (.ok (.dict [("homeworks", .list []), ("current_date", .int 7)]))]).sent
        ++ (attempt (.failure "A")).2.1 ∧
    (runCycle (List.foldl runCycle (runCycle ⟨.int 0, "", []⟩ (.failure "A"))
        [.response 200 (.ok (.dict [("homeworks", .list []), ("current_date", .int 7)]))])
        (.failure "A")).last_error =
      failFmt (.endpointUnavailable "Сбой при запросе к эндпоинту: A")) :=
  ⟨last_error_persistence.1 ⟨.int 0, "", []⟩
      (.response 200 (.ok (.dict [("homeworks", .list []), ("current_date", .int 7)]))) rfl,
   last_error_persistence.2.1 ⟨.int 0, "", []⟩ (.failure "A")
      [.response 200 (.ok (.dict [("homeworks", .list []), ("current_date", .int 7)]))]
      (.failure "A")
      (.endpointUnavailable "Сбой при запросе к эндпоинту: A")
      (.endpointUnavailable "Сбой при запросе к эндпоинту: A")
      rfl (by decide) rfl rfl⟩

/-- C10: check_response accepts any mapping whose current_date has an
arbitrary value as long as homeworks is a list; the cycle then stores
that value in the time cursor, and the next fetch carries it as the
from_date query parameter. -/
theorem current_date_uninspected (st : BotState) (entries : List (String × PyValue))
    (v : PyValue) (hws : List PyValue)
    (hhw : entries.lookup "homeworks" = Option.some (.list hws))
    (hcd : entries.lookup "current_date" = Option.some v) :
    check_response (.dict entries) = .ok () ∧
    (runCycle st (.response 200 (.ok (.dict entries)))).timestamp = v ∧
    nextRequest (runCycle st (.response 200 (.ok (.dict entries)))) =
      { url := ENDPOINT, from_date := v, timeoutSecs := 30 } := by
  have hcheck : check_response (.dict entries) = .ok () := by
    simp [check_response, hhw, hcd, getKey, isList]
  have hts : (runCycle st (.response 200 (.ok (.dict entries)))).timestamp = v := by
    rw [runCycle_timestamp, attempt_valid _ hcheck]
    simp [getKey, hcd]
  exact ⟨hcheck, hts, by simp [nextRequest, buildRequest, hts]⟩

/-- C10 witness: a current_date holding a string passes validation,
lands in the cursor and in the next request's from_date. -/
theorem current_date_uninspected_witness :
    check_response (.dict
      [("homeworks", .list []), ("current_date", .str "not a timestamp")]) = .ok () ∧
    (runCycle ⟨.int 0, "", []⟩ (.response 200 (.ok (.dict
      [("homeworks", .list []), ("current_date", .str "not a timestamp")])))).timestamp =
      .str "not a timestamp" ∧
    nextRequest (runCycle ⟨.int 0, "", []⟩ (.response 200 (.ok (.dict
      [("homeworks", .list []), ("current_date", .str "not a timestamp")])))) =
      { url := ENDPOINT, from_date := .str "not a timestamp", timeoutSecs := 30 } :=
  current_date_uninspected ⟨.int 0, "", []⟩
    [("homeworks", .list []), ("current_date", .str "not a timestamp")]
    (.str "not a timestamp") [] rfl rfl
